import Mathlib

/-!
Verification development for the nc-movie-scraper repository
(src/moviescraper/scraper.py, browser.py, json_requests.py).

The Python code is shallowly embedded: JSON values become an inductive
type, HTTP responses become an explicit result type supplied by the
caller (the network is a parameter), dictionary access and the other
dynamic Python operations become functions returning Except, and each
method of TheaterScraper becomes a Lean function over those types.
-/

namespace MovieScraper

/-- JSON values as parsed by response.json(). Objects keep their field
order, mirroring Python dictionaries. -/
inductive Json where
  | null : Json
  | bool (b : Bool) : Json
  | num (n : Int) : Json
  | str (s : String) : Json
  | arr (elems : List Json) : Json
  | obj (fields : List (String × Json)) : Json

/-- Test for the Python value None. -/
def Json.isNull : Json → Bool
  | .null => true
  | _ => false

/-- Exception kinds the embedded code can raise, mirroring the Python
exception classes that appear in scraper.py. -/
inductive PyErr where
  | requestException (msg : String) : PyErr
  | valueError (msg : String) : PyErr
  | attributeError : PyErr
  | typeError : PyErr
  | keyError : PyErr

/-- Outcome of one HTTP call as seen after raise_for_status: either a
transport-level failure (network error, non-2xx status, or an
undecodable body, all of which requests surfaces as RequestException)
or a successfully parsed JSON body. -/
inductive FetchResult where
  | transportError (msg : String) : FetchResult
  | ok (body : Json) : FetchResult

/-- Python dict.get(k, dflt): the value under k, or dflt when the key
is absent; AttributeError when the receiver is not a dict. -/
def pyGet (j : Json) (k : String) (dflt : Json) : Except PyErr Json :=
  match j with
  | .obj fs => .ok ((List.lookup k fs).getD dflt)
  | _ => .error .attributeError

/-- Does the first character list start the second one? -/
def charsStartWith : List Char → List Char → Bool
  | [], _ => true
  | _ :: _, [] => false
  | a :: as, b :: bs => a == b && charsStartWith as bs

/-- Does the first character list occur contiguously in the second? -/
def charsContain (needle : List Char) : List Char → Bool
  | [] => charsStartWith needle []
  | c :: cs => charsStartWith needle (c :: cs) || charsContain needle cs

/-- Python membership test k in j: key membership for dicts, substring
for strings, element membership for lists, TypeError otherwise. -/
def pyMem (k : String) (j : Json) : Except PyErr Bool :=
  match j with
  | .obj fs => .ok (fs.any (fun kv => kv.1 == k))
  | .str s => .ok (charsContain k.data s.data)
  | .arr xs => .ok (xs.any (fun x => match x with | .str s => s == k | _ => false))
  | _ => .error .typeError

/-- Python subscription j[k] with a string key: the value for dicts
holding the key, KeyError for dicts missing it, TypeError otherwise. -/
def pyIndex (j : Json) (k : String) : Except PyErr Json :=
  match j with
  | .obj fs =>
    match List.lookup k fs with
    | some v => .ok v
    | none => .error .keyError
  | _ => .error .typeError

/-- Outcome of probing one candidate endpoint inside the loop of
TheaterScraper._fetch_movie_data. -/
inductive ProbeOutcome where
  | found (v : Json) : ProbeOutcome
  | next : ProbeOutcome
  | fatal (e : PyErr) : ProbeOutcome

/-- One iteration of the loop in TheaterScraper._fetch_movie_data:
GET the endpoint, raise_for_status, read data = body.get("data", {}),
and when "allMovie" is in data with a non-None value return
data["allMovie"]; a RequestException is re-raised wrapped with the
endpoint name, so it is fatal rather than a skip. -/
def probeStep (endpoint : String) (r : FetchResult) : ProbeOutcome :=
  match r with
  | .transportError msg =>
    .fatal (.requestException
      ("Failed to get movie data from " ++ endpoint ++ ": " ++ msg))
  | .ok body =>
    match pyGet body "data" (Json.obj []) with
    | .error e => .fatal e
    | .ok data =>
      match pyMem "allMovie" data with
      | .error e => .fatal e
      | .ok false => .next
      | .ok true =>
        match pyGet data "allMovie" Json.null with
        | .error e => .fatal e
        | .ok v =>
          if v.isNull then .next
          else
            match pyIndex data "allMovie" with
            | .error e => .fatal e
            | .ok mv => .found mv

/-- The ValueError message raised when the candidate list is exhausted
(typo preserved from the source). -/
def exhaustionMsg : String :=
  "Could not find API endpointing containing the 'allMovie' key"

/-- TheaterScraper._fetch_movie_data: walk the discovered endpoints in
order; return the first match as (endpoint, movie_data), stop the run
on a fatal outcome, and raise ValueError when the list is exhausted.
The network is passed in as the function fetch. -/
def fetchMovieData (endpoints : List String) (fetch : String → FetchResult) :
    Except PyErr (String × Json) :=
  match endpoints with
  | [] => .error (.valueError exhaustionMsg)
  | e :: rest =>
    match probeStep e (fetch e) with
    | .found v => .ok (e, v)
    | .fatal err => .error err
    | .next => fetchMovieData rest fetch

/-- The endpoints actually requested by fetchMovieData, in order: the
loop issues one GET per iteration and stops at the first found or
fatal outcome. -/
def probedEndpoints (endpoints : List String) (fetch : String → FetchResult) :
    List String :=
  match endpoints with
  | [] => []
  | e :: rest =>
    match probeStep e (fetch e) with
    | .next => e :: probedEndpoints rest fetch
    | _ => [e]

/- ## Endpoint discovery (browser.py and the legacy json_requests.py) -/

/-- Python str.endswith: does the string end in the given suffix? -/
def pyEndsWith (s suffix : String) : Bool :=
  charsStartWith suffix.data.reverse s.data.reverse

/-- Outcome of the headless-browser session: either the chronological
list of request URLs observed while rendering the page, or an
exception (navigation error, launch failure, readiness-wait timeout)
thrown somewhere before the collection loop runs. -/
inductive SessionResult where
  | success (observed : List String) : SessionResult
  | failure (exc : String) : SessionResult

/-- The collection loop shared by both discovery modules: append each
observed request URL that ends in ".json", in observation order. -/
def collectJsonRequests : List String → List String
  | [] => []
  | r :: rs =>
    if pyEndsWith r ".json" then r :: collectJsonRequests rs
    else collectJsonRequests rs

/-- browser.get_json_requests: run the session; on success return the
filtered request list, and on any exception print a message and
return the empty list (the driver is quit in a finally block). -/
def getJsonRequests : SessionResult → List String
  | .success reqs => collectJsonRequests reqs
  | .failure _ => []

/-- json_requests.get_json_requests, the older module: the same
session and loop but with no exception handling, so a session failure
propagates to the caller. -/
def getJsonRequestsLegacy : SessionResult → Except String (List String)
  | .success reqs => .ok (collectJsonRequests reqs)
  | .failure e => .error e

/-- Modelled from the spec: the path component of a URL, found by
skipping the scheme marker and the host, then cutting the remainder
at a query or fragment delimiter. Used only to state the claim about
discovery filtering on the path component. -/
def afterMarker (marker : List Char) : List Char → Option (List Char)
  | [] => if charsStartWith marker [] then some [] else none
  | c :: cs =>
    if charsStartWith marker (c :: cs) then some ((c :: cs).drop marker.length)
    else afterMarker marker cs

/-- Modelled from the spec: the tail of a character list starting at
its first slash, or empty when there is none. -/
def fromFirstSlash : List Char → List Char
  | [] => []
  | c :: cs => if c == '/' then c :: cs else fromFirstSlash cs

/-- Modelled from the spec: the characters before any query or
fragment delimiter. -/
def beforeQuery : List Char → List Char
  | [] => []
  | c :: cs => if c == '?' || c == '#' then [] else c :: beforeQuery cs

/-- Modelled from the spec: the path component of a URL string. -/
def urlPath (url : String) : String :=
  String.mk
    (beforeQuery (fromFirstSlash ((afterMarker "://".data url.data).getD url.data)))

/- ## Configuration loading (TheaterConfig.from_env) -/

/-- The immutable configuration record built by TheaterConfig. -/
structure TheaterConfig where
  showtimes_url : String
  website_id : String
  theater_id : String
  schedule_endpoint : String

/-- The four environment variables required by TheaterConfig.from_env,
in source order. -/
def requiredVars : List String :=
  ["SHOWTIMES_URL", "WEBSITE_ID", "THEATER_ID", "SCHEDULE_ENDPOINT"]

/-- Python truthiness of an os.getenv result: None (unset) and the
empty string are both falsy. -/
def envTruthy (v : Option String) : Bool :=
  match v with
  | none => false
  | some s => !(s == "")

/-- The missing_vars comprehension in from_env: required variables
whose value is unset or empty, in source order. -/
def missingVars (env : String → Option String) : List String :=
  requiredVars.filter (fun v => !envTruthy (env v))

/-- The ValueError message raised by from_env, naming the env file and
every missing variable joined by a comma and space. -/
def missingMsg (envFile : String) (missing : List String) : String :=
  "Missing required environment variables from " ++ envFile ++ ": "
    ++ String.intercalate ", " missing

/-- TheaterConfig.from_env after dotenv loading: the environment is
passed in as a lookup function. Raises one ValueError listing every
missing required variable, otherwise builds the config from the four
values. -/
def fromEnv (env : String → Option String) (envFile : String) :
    Except PyErr TheaterConfig :=
  let missing := missingVars env
  if missing.isEmpty then
    .ok ⟨(env "SHOWTIMES_URL").getD "", (env "WEBSITE_ID").getD "",
         (env "THEATER_ID").getD "", (env "SCHEDULE_ENDPOINT").getD ""⟩
  else
    .error (.valueError (missingMsg envFile missing))

/- ## Schedule window arithmetic (get_schedule, dateutil relativedelta) -/

/-- A Python datetime value, split into its calendar fields. -/
structure PyDateTime where
  year : Nat
  month : Nat
  day : Nat
  hour : Nat
  minute : Nat
  second : Nat
  microsecond : Nat

/-- Gregorian leap-year rule, as in calendar.isleap. -/
def isLeapYear (y : Nat) : Bool :=
  (y % 4 == 0 && !(y % 100 == 0)) || y % 400 == 0

/-- Number of days in a month, as in calendar.monthrange. -/
def daysInMonth (y m : Nat) : Nat :=
  if m == 2 then (if isLeapYear y then 29 else 28)
  else if m == 4 || m == 6 || m == 9 || m == 11 then 30
  else 31

/-- dateutil relativedelta(years=n) added to a datetime: the year is
bumped and the day is clamped to the length of the target month; all
other fields are unchanged. -/
def addYears (dt : PyDateTime) (n : Nat) : PyDateTime :=
  ⟨dt.year + n, dt.month, min dt.day (daysInMonth (dt.year + n) dt.month),
   dt.hour, dt.minute, dt.second, dt.microsecond⟩

/-- A datetime whose month and day fields denote a real calendar date. -/
def ValidDateTime (dt : PyDateTime) : Prop :=
  1 ≤ dt.month ∧ dt.month ≤ 12 ∧ 1 ≤ dt.day ∧ dt.day ≤ daysInMonth dt.year dt.month

/-- The POST body built by TheaterScraper.get_schedule. -/
structure ScheduleBody where
  theaterId : String
  timeZone : String
  movieIds : List Json
  fromTs : PyDateTime
  toTs : PyDateTime
  websiteId : String

/-- Construction of the schedule request body in get_schedule: one
theater entry with the configured id and the fixed time zone, the
movie ids, from = today, to = today + relativedelta(years=1), and the
configured website id. -/
def buildScheduleBody (config : TheaterConfig) (movieIds : List Json)
    (today : PyDateTime) : ScheduleBody :=
  ⟨config.theater_id, "America/Los_Angeles", movieIds, today,
   addYears today 1, config.website_id⟩

/- ## Schedule response handling (get_schedule) -/

/-- The ValueError message raised when the schedule path is missing
or None despite a successful response. -/
def scheduleNotFoundMsg : String :=
  "Response from schedule endpoint was successful, but schedule data could not be found"

/-- Response handling in TheaterScraper.get_schedule: a transport
failure is re-raised wrapped as a RequestException naming the
endpoint; on a 2xx response the body is indexed by
body.get(theater_id, {}).get("schedule"), a missing or None result
raises the ValueError above (which the except clause does not catch),
and otherwise the schedule value is returned verbatim. -/
def extractSchedule (config : TheaterConfig) (resp : FetchResult) :
    Except PyErr Json :=
  match resp with
  | .transportError msg =>
    .error (.requestException
      ("Failed to get schedule from " ++ config.schedule_endpoint ++ ": " ++ msg))
  | .ok body =>
    match pyGet body config.theater_id (Json.obj []) with
    | .error e => .error e
    | .ok t =>
      match pyGet t "schedule" Json.null with
      | .error e => .error e
      | .ok s => if s.isNull then .error (.valueError scheduleNotFoundMsg) else .ok s

/- ## Movie node and id extraction (_get_movie_nodes, _get_movie_ids) -/

/-- TheaterScraper._get_movie_nodes: nodes = data["nodes"] applied to
the accepted allMovie value. -/
def getMovieNodes (movieData : Json) : Except PyErr Json :=
  pyIndex movieData "nodes"

/-- Python iteration over a JSON value, as used by the comprehension
in _get_movie_ids: lists yield their elements, dicts their keys,
strings their one-character substrings; other values are not
iterable. -/
def pyIter (j : Json) : Except PyErr (List Json) :=
  match j with
  | .arr xs => .ok xs
  | .obj fs => .ok (fs.map (fun kv => Json.str kv.1))
  | .str s => .ok (s.data.map (fun c => Json.str (String.mk [c])))
  | _ => .error .typeError

/-- The comprehension body of _get_movie_ids: node.get("id") for each
node in order, the first failure aborting the whole comprehension. -/
def mapNodeIds : List Json → Except PyErr (List Json)
  | [] => .ok []
  | n :: ns =>
    match pyGet n "id" Json.null with
    | .error e => .error e
    | .ok i =>
      match mapNodeIds ns with
      | .error e => .error e
      | .ok rest => .ok (i :: rest)

/-- TheaterScraper._get_movie_ids applied to the nodes value. -/
def getMovieIds (nodes : Json) : Except PyErr (List Json) :=
  match pyIter nodes with
  | .error e => .error e
  | .ok ns => mapNodeIds ns

/- ## Concrete fixtures used by counterexamples and witnesses -/

/-- A catalog value as served under the allMovie key. -/
def exCatalog : Json := Json.obj [("nodes", Json.arr [])]

/-- A body whose data wrapper holds a non-null allMovie value. -/
def exGoodBody : Json := Json.obj [("data", Json.obj [("allMovie", exCatalog)])]

/-- A network where the first endpoint fails at transport level and
the second would match the catalog marker. -/
def exFetchC1 (e : String) : FetchResult :=
  if e == "https://a.com/bad.json" then .transportError "connection refused"
  else .ok exGoodBody

/-- A network where u1 parses but lacks the marker while u2 and u3
both match it. -/
def exFetchC2 (e : String) : FetchResult :=
  if e == "u1" then .ok (Json.obj []) else .ok exGoodBody

/-- A network whose only body parses but carries no allMovie key. -/
def exFetchC7 (_ : String) : FetchResult :=
  .ok (Json.obj [("data", Json.obj [])])

/-- A movie node with an id and a title. -/
def exNode : Json := Json.obj [("id", Json.str "42"), ("title", Json.str "Movie A")]

/-- The allMovie value wrapping the single node above. -/
def exAllMovie : Json := Json.obj [("nodes", Json.arr [exNode])]

/-- The full catalog body from the spec example. -/
def exCatalogBody : Json := Json.obj [("data", Json.obj [("allMovie", exAllMovie)])]

/-- A sample configuration for theater ABC123. -/
def exConfig : TheaterConfig :=
  ⟨"https://example.com/showtimes", "W1", "ABC123", "https://example.com/api/schedule"⟩

/-- One showing record from the spec example. -/
def exShowing : Json := Json.obj [("showtime", Json.str "2025-06-01T19:00:00")]

/-- A schedule response holding one showing for ABC123. -/
def exScheduleOk : Json :=
  Json.obj [("ABC123", Json.obj [("schedule", Json.arr [exShowing])])]

/-- A schedule response whose ABC123 entry lacks the schedule key. -/
def exScheduleBad : Json := Json.obj [("ABC123", Json.obj [])]

/-- An environment with one set variable, one empty and two unset. -/
def exEnvC9 (v : String) : Option String :=
  if v == "SHOWTIMES_URL" then some "https://example.com/showtimes"
  else if v == "WEBSITE_ID" then some ""
  else none

/- ## Shared lemmas about the resolver loop -/

/-- Candidates that probe to next are passed over by the loop without
affecting the final result. -/
theorem fetchMovieData_all_next (pre l : List String)
    (fetch : String → FetchResult)
    (h : ∀ x ∈ pre, probeStep x (fetch x) = ProbeOutcome.next) :
    fetchMovieData (pre ++ l) fetch = fetchMovieData l fetch := by
  induction pre with
  | nil => rfl
  | cons a pre ih =>
    have ha : probeStep a (fetch a) = ProbeOutcome.next :=
      h a (List.mem_cons_self a pre)
    have ih2 := ih (fun x hx => h x (List.mem_cons_of_mem a hx))
    simp only [List.cons_append, fetchMovieData, ha]
    exact ih2

/-- Candidates that probe to next are recorded as probed and the loop
continues through them. -/
theorem probedEndpoints_all_next (pre l : List String)
    (fetch : String → FetchResult)
    (h : ∀ x ∈ pre, probeStep x (fetch x) = ProbeOutcome.next) :
    probedEndpoints (pre ++ l) fetch = pre ++ probedEndpoints l fetch := by
  induction pre with
  | nil => rfl
  | cons a pre ih =>
    have ha : probeStep a (fetch a) = ProbeOutcome.next :=
      h a (List.mem_cons_self a pre)
    have ih2 := ih (fun x hx => h x (List.mem_cons_of_mem a hx))
    simp only [List.cons_append, probedEndpoints, ha]
    exact congrArg (a :: ·) ih2

/-- Decomposition of a successful resolver run: the accepted endpoint
sits after a prefix of candidates that probed to next and itself
probed to found. -/
theorem fetchMovieData_ok_decomp (endpoints : List String)
    (fetch : String → FetchResult) (e : String) (v : Json)
    (h : fetchMovieData endpoints fetch = .ok (e, v)) :
    ∃ pre rest, endpoints = pre ++ e :: rest
      ∧ (∀ x ∈ pre, probeStep x (fetch x) = ProbeOutcome.next)
      ∧ probeStep e (fetch e) = ProbeOutcome.found v := by
  induction endpoints with
  | nil => simp [fetchMovieData] at h
  | cons a rest ih =>
    cases hp : probeStep a (fetch a) with
    | found w =>
      have hw : Except.ok (ε := PyErr) (a, w) = Except.ok (e, v) := by
        rw [← h]; simp [fetchMovieData, hp]
      have hae : a = e ∧ w = v := by
        have := Except.ok.inj hw
        exact ⟨congrArg Prod.fst this, congrArg Prod.snd this⟩
      refine ⟨[], rest, ?_, ?_, ?_⟩
      · simp [hae.1]
      · intro x hx; cases hx
      · rw [← hae.1, hp, hae.2]
    | fatal err => simp [fetchMovieData, hp] at h
    | next =>
      have h2 : fetchMovieData rest fetch = .ok (e, v) := by
        rw [← h]; simp [fetchMovieData, hp]
      obtain ⟨pre, rest2, hd, hpre, he⟩ := ih h2
      refine ⟨a :: pre, rest2, by simp [hd], ?_, he⟩
      intro x hx
      rcases List.mem_cons.mp hx with hxa | hxp
      · rw [hxa]; exact hp
      · exact hpre x hxp

/- ## Claim theorems -/

/-- C5 counterexample: the legacy discovery function in
json_requests.py has no exception handling, so a browser-session
failure (for instance a readiness-wait timeout) propagates to the
caller instead of becoming an empty list, refuting the claim that no
failure of discovery ever propagates. -/
theorem legacy_discovery_propagates_failure :
    getJsonRequestsLegacy (SessionResult.failure "TimeoutException") =
      .error "TimeoutException" := rfl

/-- C5 (amended): the discovery function in browser.py, the one the
scraper calls, converts every browser-session exception into an empty
result list; only the legacy json_requests.py variant propagates. -/
theorem browser_discovery_empty_on_failure (exc : String) :
    getJsonRequests (SessionResult.failure exc) = [] := rfl

/-- C6 counterexample: a URL whose path component ends in .json but
whose full string ends in its query suffix is dropped by discovery,
because the code tests request.url.endswith on the whole URL rather
than on the path component. -/
theorem discovery_path_component_counterexample :
    pyEndsWith (urlPath "https://a.com/movies.json?v=1") ".json" = true
    ∧ getJsonRequests
        (SessionResult.success ["https://a.com/movies.json?v=1"]) = [] := by
  exact ⟨rfl, rfl⟩

/-- C6 (amended): discovery returns exactly those observed request
URLs whose full URL string ends in the literal suffix .json, in the
chronological order in which they were observed. -/
theorem discovery_filters_full_url_suffix (reqs : List String) :
    getJsonRequests (SessionResult.success reqs) =
      reqs.filter (fun r => pyEndsWith r ".json")
    ∧ List.Sublist (getJsonRequests (SessionResult.success reqs)) reqs := by
  have h : ∀ l : List String,
      collectJsonRequests l = l.filter (fun r => pyEndsWith r ".json") := by
    intro l
    induction l with
    | nil => rfl
    | cons r rs ih =>
      by_cases hr : pyEndsWith r ".json" = true
      · simp [collectJsonRequests, List.filter, hr, ih]
      · simp [collectJsonRequests, List.filter,
          Bool.of_not_eq_true hr, ih]
  refine ⟨h reqs, ?_⟩
  show List.Sublist (getJsonRequests (SessionResult.success reqs)) reqs
  rw [show getJsonRequests (SessionResult.success reqs) = _ from h reqs]
  exact List.filter_sublist reqs

/-- C7: when every discovered candidate probes to next, that is,
parses without a non-null allMovie marker, the resolver exhausts the
list (including the empty list) and raises the ValueError signalling
that no catalog endpoint was found. -/
theorem resolver_exhaustion_raises (endpoints : List String)
    (fetch : String → FetchResult)
    (h : ∀ e ∈ endpoints, probeStep e (fetch e) = ProbeOutcome.next) :
    fetchMovieData endpoints fetch = .error (.valueError exhaustionMsg) := by
  induction endpoints with
  | nil => rfl
  | cons e rest ih =>
    have he := h e (List.mem_cons_self e rest)
    simp only [fetchMovieData, he]
    exact ih (fun x hx => h x (List.mem_cons_of_mem e hx))

/-- C7 witness: a single candidate whose body parses but holds no
allMovie key leads to the exhaustion ValueError. -/
theorem resolver_exhaustion_raises_witness :
    fetchMovieData ["https://a.com/x.json"] exFetchC7 =
      .error (.valueError exhaustionMsg) :=
  resolver_exhaustion_raises ["https://a.com/x.json"] exFetchC7
    (fun e he => by
      cases he with
      | head => rfl
      | tail _ h2 => cases h2)

/-- C1 counterexample: with a transport failure at the first candidate
and a matching catalog at the second, the resolver raises the wrapped
RequestException and never reaches the second candidate, so a
transport failure is fatal to the whole run rather than a per-endpoint
skip. -/
theorem resolver_skip_counterexample :
    fetchMovieData ["https://a.com/bad.json", "https://a.com/good.json"]
        exFetchC1 =
      .error (.requestException
        "Failed to get movie data from https://a.com/bad.json: connection refused")
    ∧ probeStep "https://a.com/good.json"
        (exFetchC1 "https://a.com/good.json") = ProbeOutcome.found exCatalog
    ∧ probedEndpoints
        ["https://a.com/bad.json", "https://a.com/good.json"] exFetchC1 =
      ["https://a.com/bad.json"] := by
  exact ⟨rfl, rfl, rfl⟩

/-- C1 (amended): during catalog resolution a GET that returns a
non-2xx response or fails at the network level is fatal to the whole
run: after any prefix of non-matching candidates, the resolver
re-raises the failure as a RequestException naming the endpoint, and
no further candidate is probed. -/
theorem resolver_transport_error_fatal (pre : List String) (e : String)
    (rest : List String) (fetch : String → FetchResult) (msg : String)
    (hpre : ∀ x ∈ pre, probeStep x (fetch x) = ProbeOutcome.next)
    (herr : fetch e = .transportError msg) :
    fetchMovieData (pre ++ e :: rest) fetch =
      .error (.requestException
        ("Failed to get movie data from " ++ e ++ ": " ++ msg))
    ∧ probedEndpoints (pre ++ e :: rest) fetch = pre ++ [e] := by
  constructor
  · rw [fetchMovieData_all_next pre (e :: rest) fetch hpre]
    simp [fetchMovieData, probeStep, herr]
  · rw [probedEndpoints_all_next pre (e :: rest) fetch hpre]
    simp [probedEndpoints, probeStep, herr]

/-- C1 amended witness: the two-candidate network with a transport
failure first shows the fatal propagation concretely. -/
theorem resolver_transport_error_fatal_witness :
    fetchMovieData ["https://a.com/bad.json", "https://a.com/good.json"]
        exFetchC1 =
      .error (.requestException
        ("Failed to get movie data from " ++ "https://a.com/bad.json"
          ++ ": " ++ "connection refused"))
    ∧ probedEndpoints
        ["https://a.com/bad.json", "https://a.com/good.json"] exFetchC1 =
      [] ++ ["https://a.com/bad.json"] :=
  resolver_transport_error_fatal [] "https://a.com/bad.json"
    ["https://a.com/good.json"] exFetchC1 "connection refused"
    (fun x hx => by cases hx) rfl

/-- C2: the resolver returns (e, v) exactly when the candidate list
splits as a prefix of candidates that parsed without the marker,
followed by e whose probe found the non-null allMovie value v; and on
every successful run the endpoints actually requested are that prefix
plus e, so no later candidate is probed. -/
theorem resolver_accepts_first_match (endpoints : List String)
    (fetch : String → FetchResult) (e : String) (v : Json) :
    (fetchMovieData endpoints fetch = .ok (e, v) ↔
      ∃ pre rest, endpoints = pre ++ e :: rest
        ∧ (∀ x ∈ pre, probeStep x (fetch x) = ProbeOutcome.next)
        ∧ probeStep e (fetch e) = ProbeOutcome.found v)
    ∧ (fetchMovieData endpoints fetch = .ok (e, v) →
        ∃ pre rest, endpoints = pre ++ e :: rest
          ∧ probedEndpoints endpoints fetch = pre ++ [e]) := by
  constructor
  · constructor
    · exact fetchMovieData_ok_decomp endpoints fetch e v
    · rintro ⟨pre, rest, rfl, hpre, he⟩
      rw [fetchMovieData_all_next pre (e :: rest) fetch hpre]
      simp [fetchMovieData, he]
  · intro h
    obtain ⟨pre, rest, hd, hpre, he⟩ :=
      fetchMovieData_ok_decomp endpoints fetch e v h
    refine ⟨pre, rest, hd, ?_⟩
    rw [hd, probedEndpoints_all_next pre (e :: rest) fetch hpre]
    simp [probedEndpoints, he]

/-- C2 witness: with u1 parsing without the marker and u2 and u3 both
matching, the resolver accepts u2 with its catalog and probes only u1
and u2. -/
theorem resolver_accepts_first_match_witness :
    fetchMovieData ["u1", "u2", "u3"] exFetchC2 = .ok ("u2", exCatalog)
    ∧ probedEndpoints ["u1", "u2", "u3"] exFetchC2 = ["u1", "u2"] := by
  have h := resolver_accepts_first_match ["u1", "u2", "u3"] exFetchC2
    "u2" exCatalog
  have hpre : ∀ x ∈ ["u1"], probeStep x (exFetchC2 x) = ProbeOutcome.next := by
    intro x hx
    cases hx with
    | head => rfl
    | tail _ hx2 => cases hx2
  have hok : fetchMovieData ["u1", "u2", "u3"] exFetchC2 =
      .ok ("u2", exCatalog) :=
    h.1.mpr ⟨["u1"], ["u3"], rfl, hpre, rfl⟩
  exact ⟨hok, rfl⟩

/-- Every month has at least 28 days. -/
theorem daysInMonth_ge (y m : Nat) : 28 ≤ daysInMonth y m := by
  unfold daysInMonth
  split
  · split <;> omega
  · split <;> omega

/-- Outside February the length of a month does not depend on the
year. -/
theorem daysInMonth_eq_of_ne_two (y z m : Nat) (h : m ≠ 2) :
    daysInMonth y m = daysInMonth z m := by
  have hb : (m == 2) = false := beq_eq_false_iff_ne.mpr h
  unfold daysInMonth
  rw [hb]
  simp

/-- February has 29 days in leap years and 28 otherwise. -/
theorem daysInMonth_feb (y : Nat) :
    daysInMonth y 2 = if isLeapYear y then 29 else 28 := rfl

/-- C3: the schedule request window runs from today to today plus one
calendar year under relativedelta arithmetic: the to timestamp keeps
the month and the time fields, bumps the year by one, clamps the day
to the target month length, is itself a valid date, and differs in its
day field exactly in the leap-day case, February 29 mapping into a
non-leap year. -/
theorem schedule_to_one_calendar_year (config : TheaterConfig)
    (ids : List Json) (today : PyDateTime) (h : ValidDateTime today) :
    (buildScheduleBody config ids today).fromTs = today
    ∧ (buildScheduleBody config ids today).toTs.year = today.year + 1
    ∧ (buildScheduleBody config ids today).toTs.month = today.month
    ∧ (buildScheduleBody config ids today).toTs.day =
        min today.day (daysInMonth (today.year + 1) today.month)
    ∧ (buildScheduleBody config ids today).toTs.hour = today.hour
    ∧ (buildScheduleBody config ids today).toTs.minute = today.minute
    ∧ (buildScheduleBody config ids today).toTs.second = today.second
    ∧ (buildScheduleBody config ids today).toTs.microsecond = today.microsecond
    ∧ ValidDateTime (buildScheduleBody config ids today).toTs
    ∧ ((buildScheduleBody config ids today).toTs.day ≠ today.day ↔
        today.month = 2 ∧ today.day = 29
          ∧ isLeapYear (today.year + 1) = false) := by
  obtain ⟨y, m, d, hh, mi, s, us⟩ := today
  obtain ⟨hm1, hm2, hd1, hd2⟩ := h
  replace hm1 : 1 ≤ m := hm1
  replace hm2 : m ≤ 12 := hm2
  replace hd1 : 1 ≤ d := hd1
  replace hd2 : d ≤ daysInMonth y m := hd2
  have hge : 28 ≤ daysInMonth (y + 1) m := daysInMonth_ge (y + 1) m
  refine ⟨rfl, rfl, rfl, rfl, rfl, rfl, rfl, rfl, ?_, ?_⟩
  · show 1 ≤ m ∧ m ≤ 12 ∧ 1 ≤ min d (daysInMonth (y + 1) m)
      ∧ min d (daysInMonth (y + 1) m) ≤ daysInMonth (y + 1) m
    exact ⟨hm1, hm2, by omega, Nat.min_le_right _ _⟩
  · show min d (daysInMonth (y + 1) m) ≠ d ↔
      m = 2 ∧ d = 29 ∧ isLeapYear (y + 1) = false
    by_cases hm : m = 2
    · subst hm
      have hchar : (isLeapYear (y + 1) = false ∧ daysInMonth (y + 1) 2 = 28)
          ∨ (isLeapYear (y + 1) = true ∧ daysInMonth (y + 1) 2 = 29) := by
        cases hly : isLeapYear (y + 1)
        · exact Or.inl ⟨rfl, by rw [daysInMonth_feb, hly]; rfl⟩
        · exact Or.inr ⟨rfl, by rw [daysInMonth_feb, hly]; rfl⟩
      have h29 : d ≤ 29 := by
        rw [daysInMonth_feb] at hd2
        split at hd2 <;> omega
      constructor
      · intro hne
        rcases hchar with ⟨hf, h28⟩ | ⟨ht, h29c⟩
        · exact ⟨rfl, by rw [h28] at hne; omega, hf⟩
        · exact absurd (by rw [h29c]; omega) hne
      · rintro ⟨-, hd29, hf⟩
        rcases hchar with ⟨-, h28⟩ | ⟨ht, -⟩
        · rw [h28]; omega
        · rw [hf] at ht; exact Bool.noConfusion ht
    · have hD : daysInMonth (y + 1) m = daysInMonth y m :=
        daysInMonth_eq_of_ne_two (y + 1) y m hm
      constructor
      · intro hne
        exact absurd (by rw [hD]; omega) hne
      · rintro ⟨hm2', -, -⟩
        exact absurd hm2' hm

/-- C3 witness: the leap-day case, from 2024-02-29T00:00:00 the to
timestamp is 2025-02-28T00:00:00. -/
theorem schedule_to_one_calendar_year_witness :
    ValidDateTime ⟨2024, 2, 29, 0, 0, 0, 0⟩
    ∧ (buildScheduleBody exConfig [] ⟨2024, 2, 29, 0, 0, 0, 0⟩).toTs.year = 2025
    ∧ (buildScheduleBody exConfig [] ⟨2024, 2, 29, 0, 0, 0, 0⟩).toTs.month = 2
    ∧ (buildScheduleBody exConfig [] ⟨2024, 2, 29, 0, 0, 0, 0⟩).toTs.day = 28
    ∧ ValidDateTime (buildScheduleBody exConfig [] ⟨2024, 2, 29, 0, 0, 0, 0⟩).toTs := by
  have hval : ValidDateTime ⟨2024, 2, 29, 0, 0, 0, 0⟩ := by
    show 1 ≤ 2 ∧ 2 ≤ 12 ∧ 1 ≤ 29 ∧ 29 ≤ daysInMonth 2024 2
    decide
  have h := schedule_to_one_calendar_year exConfig []
    ⟨2024, 2, 29, 0, 0, 0, 0⟩ hval
  exact ⟨hval, h.2.1.trans (by decide), h.2.2.1,
    h.2.2.2.1.trans (by decide), h.2.2.2.2.2.2.2.2.1⟩

/-- C4: on a 2xx schedule response with an object body, a missing
theater entry, a missing schedule key or a None schedule value all
raise the shape-mismatch ValueError, the schedule value is returned
verbatim when the path resolves to a non-None value, and no outcome of
the 2xx path is ever a RequestException, keeping the semantic failure
distinct from a transport failure. -/
theorem schedule_shape_mismatch (config : TheaterConfig)
    (bodyFields : List (String × Json)) :
    (List.lookup config.theater_id bodyFields = none →
      extractSchedule config (.ok (Json.obj bodyFields)) =
        .error (.valueError scheduleNotFoundMsg))
    ∧ (∀ tFields, List.lookup config.theater_id bodyFields = some (Json.obj tFields) →
        ((List.lookup "schedule" tFields = none
            ∨ List.lookup "schedule" tFields = some Json.null) →
          extractSchedule config (.ok (Json.obj bodyFields)) =
            .error (.valueError scheduleNotFoundMsg))
        ∧ (∀ s, List.lookup "schedule" tFields = some s → Json.isNull s = false →
            extractSchedule config (.ok (Json.obj bodyFields)) = .ok s))
    ∧ (∀ msg, extractSchedule config (.ok (Json.obj bodyFields)) ≠
        .error (.requestException msg)) := by
  refine ⟨?_, ?_, ?_⟩
  · intro hnone
    simp [extractSchedule, pyGet, hnone, Json.isNull]
  · intro tFields ht
    constructor
    · rintro (hs | hs) <;> simp [extractSchedule, pyGet, ht, hs, Json.isNull]
    · intro s hs hnn
      simp [extractSchedule, pyGet, ht, hs, hnn]
  · intro msg
    cases hb : List.lookup config.theater_id bodyFields with
    | none => simp [extractSchedule, pyGet, hb, Json.isNull]
    | some t =>
      cases t with
      | obj tFields =>
        cases hs : List.lookup "schedule" tFields with
        | none => simp [extractSchedule, pyGet, hb, hs, Json.isNull]
        | some s =>
          cases hn : Json.isNull s <;>
            simp [extractSchedule, pyGet, hb, hs, hn]
      | null => simp [extractSchedule, pyGet, hb]
      | bool b => simp [extractSchedule, pyGet, hb]
      | num n => simp [extractSchedule, pyGet, hb]
      | str s2 => simp [extractSchedule, pyGet, hb]
      | arr xs => simp [extractSchedule, pyGet, hb]

/-- C4 witness: the spec examples, the response holding one showing
for ABC123 returns exactly that schedule list, and the response whose
ABC123 entry is an empty object raises the shape-mismatch ValueError. -/
theorem schedule_shape_mismatch_witness :
    extractSchedule exConfig (.ok exScheduleOk) = .ok (Json.arr [exShowing])
    ∧ extractSchedule exConfig (.ok exScheduleBad) =
        .error (.valueError scheduleNotFoundMsg) := by
  have h1 := (schedule_shape_mismatch exConfig
    [("ABC123", Json.obj [("schedule", Json.arr [exShowing])])]).2.1
    [("schedule", Json.arr [exShowing])] rfl
  have h2 := (schedule_shape_mismatch exConfig
    [("ABC123", Json.obj [])]).2.1 [] rfl
  exact ⟨h1.2 (Json.arr [exShowing]) rfl rfl, h2.1 (Or.inl rfl)⟩

/-- C8: for a catalog whose nodes are all objects, the extracted id
list is the id field of each node, in node order, a node without an id
contributing None. -/
theorem movie_ids_in_node_order (nodes : List Json)
    (h : ∀ n ∈ nodes, ∃ fs, n = Json.obj fs) :
    getMovieIds (Json.arr nodes) =
      .ok (nodes.map (fun n =>
        match n with
        | Json.obj fs => (List.lookup "id" fs).getD Json.null
        | _ => Json.null)) := by
  show mapNodeIds nodes = _
  induction nodes with
  | nil => rfl
  | cons n ns ih =>
    obtain ⟨fs, rfl⟩ := h n (List.mem_cons_self n ns)
    have ih2 := ih (fun x hx => h x (List.mem_cons_of_mem _ hx))
    simp [mapNodeIds, pyGet, ih2, List.map]

/-- C8 witness: the spec example body is accepted with its allMovie
value, its nodes are extracted, and the id list is exactly the string
42. -/
theorem movie_ids_in_node_order_witness :
    probeStep "u" (.ok exCatalogBody) = ProbeOutcome.found exAllMovie
    ∧ getMovieNodes exAllMovie = .ok (Json.arr [exNode])
    ∧ getMovieIds (Json.arr [exNode]) = .ok [Json.str "42"] := by
  have hobj : ∀ n ∈ [exNode], ∃ fs, n = Json.obj fs := by
    intro n hn
    cases hn with
    | head => exact ⟨_, rfl⟩
    | tail _ h2 => cases h2
  have h := movie_ids_in_node_order [exNode] hobj
  exact ⟨rfl, rfl, h.trans rfl⟩

/-- C9: when any required configuration keys are unset or empty,
from_env raises exactly one ValueError whose message names the env
file and joins every missing key, and the missing list contains
precisely the required keys whose value is falsy, in declaration
order; the check involves no network activity, the embedded function
reading only the environment. -/
theorem config_missing_keys_single_error (env : String → Option String)
    (envFile : String) (h : missingVars env ≠ []) :
    fromEnv env envFile =
      .error (.valueError (missingMsg envFile (missingVars env)))
    ∧ (∀ v ∈ requiredVars, envTruthy (env v) = false → v ∈ missingVars env)
    ∧ (∀ v ∈ missingVars env, v ∈ requiredVars ∧ envTruthy (env v) = false) := by
  refine ⟨?_, ?_, ?_⟩
  · cases hm : missingVars env with
    | nil => exact absurd hm h
    | cons a l => simp [fromEnv, hm]
  · intro v hv hf
    have : v ∈ requiredVars.filter (fun v => !envTruthy (env v)) :=
      List.mem_filter.mpr ⟨hv, by simp [hf]⟩
    exact this
  · intro v hv
    have h2 := List.mem_filter.mp
      (show v ∈ requiredVars.filter (fun v => !envTruthy (env v)) from hv)
    exact ⟨h2.1, by simpa using h2.2⟩

/-- C9 witness: with WEBSITE_ID set to the empty string and THEATER_ID
and SCHEDULE_ENDPOINT unset, from_env raises one ValueError listing
all three missing keys at once. -/
theorem config_missing_keys_single_error_witness :
    fromEnv exEnvC9 "env/onyx.env" =
      .error (.valueError
        "Missing required environment variables from env/onyx.env: WEBSITE_ID, THEATER_ID, SCHEDULE_ENDPOINT") := by
  have h := config_missing_keys_single_error exEnvC9 "env/onyx.env" (by decide)
  exact h.1.trans (by rfl)

/-- C10: from_env raises its missing-keys error exactly when at least
one of the four required variables is unset or set to the empty
string, so a variable holding the empty string is treated like an
absent one. -/
theorem config_empty_like_absent (env : String → Option String)
    (envFile : String) :
    (∃ msg, fromEnv env envFile = .error msg) ↔
      ∃ v ∈ requiredVars, env v = none ∨ env v = some "" := by
  have hfals : ∀ v, (!envTruthy (env v)) = true ↔
      (env v = none ∨ env v = some "") := by
    intro v
    cases he : env v with
    | none => simp [envTruthy]
    | some s =>
      simp only [envTruthy, Bool.not_not, beq_iff_eq]
      constructor
      · intro hs
        exact Or.inr (by rw [hs])
      · rintro (hcon | hsome)
        · cases hcon
        · exact Option.some.inj hsome
  constructor
  · rintro ⟨msg, hmsg⟩
    cases hm : missingVars env with
    | nil => simp [fromEnv, hm] at hmsg
    | cons a l =>
      have ha : a ∈ missingVars env := by
        rw [hm]; exact List.mem_cons_self a l
      have h2 := List.mem_filter.mp
        (show a ∈ requiredVars.filter (fun v => !envTruthy (env v)) from ha)
      exact ⟨a, h2.1, (hfals a).mp h2.2⟩
  · rintro ⟨v, hv, hcase⟩
    have hvm : v ∈ missingVars env :=
      List.mem_filter.mpr ⟨hv, (hfals v).mpr hcase⟩
    cases hm : missingVars env with
    | nil => rw [hm] at hvm; cases hvm
    | cons a l =>
      exact ⟨.valueError (missingMsg envFile (missingVars env)),
        by simp [fromEnv, hm]⟩

end MovieScraper
